import Mathlib

/-!
Shallow embedding of the wgpu-prog canvas runtime (src/canvas.rs,
src/error.rs, src/event_handler.rs).

The runtime owns an OS window, a GPU surface/device/queue, a surface
configuration, and a user-supplied event handler.  All externally
observable actions (calls into the handler, surface reconfiguration,
logging, presentation) are recorded as an `Effect` trace; the mutable
state that the Rust code keeps (`CanvasData.config`, `CanvasData.size`,
the `cursor_pos` local, and winit's exit flag) is carried explicitly.
Outcomes of external GPU/platform calls (surface-texture acquisition,
adapter negotiation, window creation) are supplied as oracle inputs,
since they are decided outside the repository.

Cursor coordinates are `f64` in the source; they are embedded as `Rat`.
No claim depends on floating-point rounding: the claims only track which
computed value flows where, and the scale-factor division is applied
identically in the model and in the source.
-/

/-- `winit::dpi::PhysicalSize<u32>`. -/
structure PhysicalSize where
  width : Nat
  height : Nat
deriving DecidableEq, Repr

/-- `winit::event::ElementState`. -/
inductive ElementState where
  | Pressed
  | Released
deriving DecidableEq, Repr, BEq

/-- `winit::event::MouseButton`. -/
inductive MouseButton where
  | Left
  | Right
  | Middle
  | Back
  | Forward
  | Other (code : Nat)
deriving DecidableEq, Repr

/-- `winit::keyboard::Key` (opaque logical key identity). -/
structure Key where
  name : String
deriving DecidableEq, Repr

/-- A `wgpu::TextureFormat`, reduced to its identity and its
`is_srgb()` flag, which is all `CanvasData::new` inspects. -/
structure SurfaceFormat where
  id : Nat
  srgb : Bool
deriving DecidableEq, Repr

/-- `wgpu::SurfaceCapabilities`: the lists `CanvasData::new` reads.
wgpu guarantees all three are non-empty for a supported surface. -/
structure SurfaceCapabilities where
  formats : List SurfaceFormat
  presentModes : List Nat
  alphaModes : List Nat
deriving DecidableEq, Repr

/-- `wgpu::TextureUsages::RENDER_ATTACHMENT` (bit value in wgpu). -/
def RENDER_ATTACHMENT : Nat := 16

/-- `wgpu::SurfaceConfiguration` as built in `CanvasData::new`. -/
structure SurfaceConfiguration where
  usage : Nat
  format : SurfaceFormat
  width : Nat
  height : Nat
  presentMode : Nat
  alphaMode : Nat
  viewFormats : List SurfaceFormat
deriving DecidableEq, Repr

/-- The error taxonomy of src/error.rs.  The first kind is named `IO`
in the source. -/
inductive Error where
  | IOError (err : String)
  | Internal (err : String)
  | GraphicsAPI (err : String)
  | ContextLost (err : String)
  | OutOfMemory (err : String)
deriving DecidableEq, Repr

/-- `wgpu::SurfaceError`. -/
inductive SurfaceError where
  | Timeout
  | Outdated
  | Lost
  | OutOfMemory
deriving DecidableEq, Repr

/-- `Display` for `wgpu::SurfaceError` (wgpu's impl). -/
def SurfaceError.display : SurfaceError → String
  | .Timeout => "A timeout was encountered while trying to acquire the next frame"
  | .Outdated => "The underlying surface has changed, and therefore the swap chain must be updated"
  | .Lost => "The swap chain has been lost and needs to be recreated"
  | .OutOfMemory => "There is no more memory left to allocate a new frame"

/-- `impl From<SurfaceError> for Error` (src/error.rs lines 32-40). -/
def Error.fromSurfaceError : SurfaceError → Error
  | .Lost => .ContextLost "Lost"
  | .OutOfMemory => .OutOfMemory "Out of memory"
  | e => .GraphicsAPI e.display

/-- `Debug` formatting of `Error` (derived in the source). -/
def Error.debugFmt : Error → String
  | .IOError s => "IO(\"" ++ s ++ "\")"
  | .Internal s => "Internal(\"" ++ s ++ "\")"
  | .GraphicsAPI s => "GraphicsAPI(\"" ++ s ++ "\")"
  | .ContextLost s => "ContextLost(\"" ++ s ++ "\")"
  | .OutOfMemory s => "OutOfMemory(\"" ++ s ++ "\")"

/-- Externally observable actions of the runtime: calls into the
`EventHandler`, GPU surface operations, logging, and winit requests,
in the order the source performs them. -/
inductive Effect where
  | surfaceConfigure (cfg : SurfaceConfiguration)
  | handlerSetup (width height : Nat)
  | handlerStop
  | handlerNextFrame
  | handlerResize (width height : Nat)
  | handlerCursorMove (x y : Rat)
  | handlerMouseButton (x y : Rat) (button : MouseButton) (pressed : Bool)
  | handlerKeyboard (key : Key) (pressed : Bool)
  | logError (msg : String)
  | requestRedraw
  | submit
  | present
deriving DecidableEq, Repr

/-- The state of `CanvasData` (src/canvas.rs lines 25-33) that the
program mutates: the surface configuration and the cached size.  The
window, surface, device, queue and handler are external resources whose
observable uses appear in the `Effect` trace. -/
structure CanvasData where
  config : SurfaceConfiguration
  size : PhysicalSize
deriving DecidableEq, Repr

/-- The pure tail of `CanvasData::new` (src/canvas.rs lines 42-122):
builds the surface configuration from the window's inner size and the
surface capabilities, then configures the surface.  The source indexes
`formats[0]`, `present_modes[0]`, `alpha_modes[0]`; wgpu guarantees
these lists non-empty, so `headD` defaults are never reached on real
capabilities. -/
def CanvasData.new (innerSize : PhysicalSize) (caps : SurfaceCapabilities) :
    CanvasData × List Effect :=
  let surface_format :=
    ((caps.formats.filter (fun f => f.srgb)).head?).getD
      (caps.formats.headD ⟨0, true⟩)
  let config : SurfaceConfiguration :=
    { usage := RENDER_ATTACHMENT
      format := surface_format
      width := innerSize.width
      height := innerSize.height
      presentMode := caps.presentModes.headD 0
      alphaMode := caps.alphaModes.headD 0
      viewFormats := [] }
  ({ config := config, size := innerSize }, [.surfaceConfigure config])

/-- The fallible steps of `CanvasData::new` that precede the pure tail:
surface creation, adapter request, device request.  Their outcomes are
external (GPU/platform) and enter as an oracle. -/
inductive NewFailure where
  | createSurface (msg : String)
  | noAdapter
  | requestDevice (msg : String)
deriving DecidableEq, Repr

/-- `CanvasData::new` with its error paths (src/canvas.rs lines 42-122):
each external failure is mapped to `Error::GraphicsAPI` exactly as the
source's `map_err`/`ok_or_else` calls do. -/
def CanvasData.newChecked (innerSize : PhysicalSize) (caps : SurfaceCapabilities) :
    Option NewFailure → Except Error (CanvasData × List Effect)
  | some (.createSurface msg) => .error (.GraphicsAPI msg)
  | some .noAdapter => .error (.GraphicsAPI "No suitable adapter found")
  | some (.requestDevice msg) => .error (.GraphicsAPI msg)
  | none => .ok (CanvasData.new innerSize caps)

/-- `CanvasData::resize` (src/canvas.rs lines 134-143). -/
def CanvasData.resize (c : CanvasData) (new_size : PhysicalSize) :
    CanvasData × List Effect :=
  if new_size.width > 0 && new_size.height > 0 then
    let config := { c.config with width := new_size.width, height := new_size.height }
    ({ config := config, size := new_size },
     [.surfaceConfigure config, .handlerResize new_size.width new_size.height])
  else
    (c, [])

/-- `CanvasData::input` (src/canvas.rs lines 149-151): always `false`. -/
def CanvasData.input (_c : CanvasData) : Bool := false

/-- `CanvasData::update` (src/canvas.rs line 153): does nothing. -/
def CanvasData.update (c : CanvasData) : CanvasData := c

/-- `CanvasData::render` (src/canvas.rs lines 155-196).  The outcome of
`surface.get_current_texture()` is the oracle `acquire`; on failure the
`?` operator converts the `SurfaceError` through `From`.  On success the
source submits one command buffer, presents, and calls `next_frame`. -/
def CanvasData.render (_c : CanvasData) (acquire : Option SurfaceError) :
    Except Error (List Effect) :=
  match acquire with
  | some e => .error (Error.fromSurfaceError e)
  | none => .ok [.submit, .present, .handlerNextFrame]

/-- The `winit::event::WindowEvent` cases the loop matches on.
`CursorMoved` carries the physical position; `KeyboardInput` carries the
key event's logical key and state.  `Other` stands for the `_ => ()`
arm. -/
inductive WindowEvent where
  | Resized (size : PhysicalSize)
  | CursorMoved (position : Rat × Rat)
  | MouseInput (state : ElementState) (button : MouseButton)
  | KeyboardInput (key : Key) (state : ElementState)
  | CloseRequested
  | RedrawRequested
  | Other
deriving DecidableEq, Repr

/-- A top-level `winit::event::Event`: a window event tagged with
whether its `window_id` equals the runtime's own window id, the
`AboutToWait` signal, or anything else. -/
inductive LoopEvent where
  | windowEvent (sameWindow : Bool) (event : WindowEvent)
  | aboutToWait
  | other
deriving DecidableEq, Repr

/-- One platform delivery to the event-loop closure: the window's
current scale factor, the event, and — consulted only when a redraw
renders — the outcome of surface-texture acquisition. -/
structure LoopInput where
  scaleFactor : Rat
  acquire : Option SurfaceError
  event : LoopEvent
deriving DecidableEq, Repr

/-- The mutable state of the event-loop closure: the `CanvasData`, the
`cursor_pos` local (initialised `[0.0, 0.0]`), and winit's exit flag
set by `window_target.exit()`. -/
structure LoopState where
  canvas : CanvasData
  cursorPos : Rat × Rat
  exiting : Bool
deriving DecidableEq, Repr

/-- The loop state at entry to `event_loop.run` (src/canvas.rs line 225:
`let mut cursor_pos = [0.0, 0.0];`). -/
def initLoopState (c : CanvasData) : LoopState :=
  { canvas := c, cursorPos := (0, 0), exiting := false }

/-- One execution of the event-loop closure body (src/canvas.rs lines
227-290) on one delivered event.  Returns the updated state and the
effects performed, in order. -/
def stepEvent (st : LoopState) (i : LoopInput) : LoopState × List Effect :=
  match i.event with
  | .windowEvent sameWindow we =>
    if sameWindow then
      if st.canvas.input then (st, [])
      else
        match we with
        | .Resized size =>
          let r := st.canvas.resize size
          ({ st with canvas := r.1 }, r.2)
        | .CursorMoved position =>
          let logical_position :=
            (position.1 / i.scaleFactor, position.2 / i.scaleFactor)
          ({ st with cursorPos := logical_position },
           [.handlerCursorMove logical_position.1 logical_position.2])
        | .MouseInput state button =>
          let x := st.cursorPos.1
          let y := st.cursorPos.2
          let pressed : Bool := state == ElementState.Pressed
          (st, [.handlerMouseButton x y button pressed])
        | .KeyboardInput key kstate =>
          let pressed : Bool := kstate == ElementState.Pressed
          (st, [.handlerKeyboard key pressed])
        | .CloseRequested => ({ st with exiting := true }, [])
        | .RedrawRequested =>
          let st := { st with canvas := st.canvas.update }
          match st.canvas.render i.acquire with
          | .ok effs => (st, effs)
          | .error (.ContextLost _) =>
            let r := st.canvas.resize st.canvas.size
            ({ st with canvas := r.1 }, r.2)
          | .error (.OutOfMemory _) =>
            ({ st with exiting := true }, [.logError "Out of memory"])
          | .error e => (st, [.logError e.debugFmt])
        | .Other => (st, [])
    else (st, [])
  | .aboutToWait => (st, [.requestRedraw])
  | .other => (st, [])

/-- The platform event loop: feeds deliveries to the closure until the
input list is exhausted or `exit()` has been requested, after which no
further event is processed. -/
def runEvents : LoopState → List LoopInput → LoopState × List Effect
  | st, [] => (st, [])
  | st, i :: rest =>
    if st.exiting then (st, [])
    else
      let r := stepEvent st i
      let rr := runEvents r.1 rest
      (rr.1, r.2 ++ rr.2)

/-- `CanvasOptions` (src/canvas.rs lines 18-22). -/
structure CanvasOptions where
  width : Nat
  height : Nat
  title : String
deriving DecidableEq, Repr

/-- `create_and_run_canvas` (src/canvas.rs lines 199-297).  External
outcomes enter as oracles: `eventLoopErr`/`windowErr` for
`EventLoop::new`/`WindowBuilder::build` failures, `innerSize` for
`window.inner_size()`, `caps` for the surface capabilities, `newFail`
for the fallible GPU-negotiation steps, `setupFail` for the handler's
`setup` result (`some err` is `Err(err)`), `inputs` for the platform's
event deliveries, and `runErr` for a failure of `event_loop.run`
itself.  Returns the effect trace and the function's result. -/
def create_and_run_canvas (options : CanvasOptions)
    (eventLoopErr : Option String) (windowErr : Option String)
    (innerSize : PhysicalSize) (caps : SurfaceCapabilities)
    (newFail : Option NewFailure) (setupFail : Option String)
    (inputs : List LoopInput) (runErr : Option String) :
    List Effect × Except Error Unit :=
  match eventLoopErr with
  | some e => ([], .error (.GraphicsAPI e))
  | none =>
  match windowErr with
  | some e => ([], .error (.GraphicsAPI e))
  | none =>
  match CanvasData.newChecked innerSize caps newFail with
  | .error e => ([], .error e)
  | .ok cd =>
    let setupEff := Effect.handlerSetup options.width options.height
    match setupFail with
    | some err =>
      (cd.2 ++ [setupEff, .logError ("Error during setup: " ++ err)],
       .error (.Internal ("Error during setup: " ++ err)))
    | none =>
      let r := runEvents (initLoopState cd.1) inputs
      match runErr with
      | some e => (cd.2 ++ setupEff :: r.2, .error (.GraphicsAPI e))
      | none => (cd.2 ++ setupEff :: r.2, .ok ())

/-- Bool test for a `handlerResize` effect. -/
def Effect.isHandlerResize : Effect → Bool
  | .handlerResize _ _ => true
  | _ => false

/-- Bool test for a `surfaceConfigure` effect. -/
def Effect.isSurfaceConfigure : Effect → Bool
  | .surfaceConfigure _ => true
  | _ => false

/-- Bool test for a `handlerSetup` effect. -/
def Effect.isHandlerSetup : Effect → Bool
  | .handlerSetup _ _ => true
  | _ => false

/-- Bool test for a `handlerStop` effect. -/
def Effect.isHandlerStop : Effect → Bool
  | .handlerStop => true
  | _ => false

/-- Bool test for a `handlerNextFrame` effect. -/
def Effect.isHandlerNextFrame : Effect → Bool
  | .handlerNextFrame => true
  | _ => false

/-- A concrete surface-capability set for concrete evaluations. -/
def caps0 : SurfaceCapabilities :=
  { formats := [⟨7, true⟩], presentModes := [1], alphaModes := [2] }

/-- A concrete canvas, as created for an 800×600 window inner size. -/
def canvas0 : CanvasData := (CanvasData.new ⟨800, 600⟩ caps0).1

/-- Folds the `cursor_pos` cache over a trace: a `handlerCursorMove`
effect overwrites it, every other effect leaves it unchanged. -/
def updateCursor (p : Rat × Rat) : Effect → Rat × Rat
  | .handlerCursorMove x y => (x, y)
  | _ => p

/-- The cached cursor position after a trace, starting from `p`. -/
def trackCursor (p : Rat × Rat) (t : List Effect) : Rat × Rat :=
  t.foldl updateCursor p

/-- Checks that every `handlerMouseButton` effect in a trace carries
exactly the coordinates of the most recent preceding `handlerCursorMove`
effect, or the initial position `p` when none precedes it. -/
def mouseUsesLatestCursor (p : Rat × Rat) : List Effect → Bool
  | [] => true
  | .handlerCursorMove x y :: rest => mouseUsesLatestCursor (x, y) rest
  | .handlerMouseButton x y _ _ :: rest =>
    decide ((x, y) = p) && mouseUsesLatestCursor p rest
  | _ :: rest => mouseUsesLatestCursor p rest

/-- Identifies loop inputs delivering a `CursorMoved` window event. -/
def LoopInput.isCursorMove (i : LoopInput) : Bool :=
  match i.event with
  | .windowEvent _ (.CursorMoved _) => true
  | _ => false

/-- C2: for every resize event with both dimensions positive, the surface
configuration's width and height equal the new dimensions, the surface is
reconfigured against the device with exactly that updated configuration,
and the handler's resize callback is invoked exactly once with those
values, strictly after the configuration update and reconfiguration (the
effect list is literally configure-then-notify). -/
theorem C2_resize_positive (c : CanvasData) (w h : Nat) (hw : 0 < w) (hh : 0 < h) :
    (c.resize ⟨w, h⟩).1.config.width = w ∧
    (c.resize ⟨w, h⟩).1.config.height = h ∧
    (c.resize ⟨w, h⟩).2 =
      [.surfaceConfigure (c.resize ⟨w, h⟩).1.config, .handlerResize w h] := by
  simp [CanvasData.resize, hw, hh]

/-- Witness for C2 at the spec's end-to-end scenario (resize to 1024×768). -/
theorem C2_resize_positive_witness :
    (canvas0.resize ⟨1024, 768⟩).1.config.width = 1024 ∧
    (canvas0.resize ⟨1024, 768⟩).1.config.height = 768 ∧
    (canvas0.resize ⟨1024, 768⟩).2 =
      [.surfaceConfigure (canvas0.resize ⟨1024, 768⟩).1.config,
       .handlerResize 1024 768] :=
  C2_resize_positive canvas0 1024 768 (by decide) (by decide)

/-- C3: for every resize event with width 0 or height 0, resize is a
no-op: the state (configuration and cached size) is unchanged and no
effect is performed (no reconfiguration, no resize callback). -/
theorem C3_resize_zero_noop (c : CanvasData) (s : PhysicalSize)
    (h : s.width = 0 ∨ s.height = 0) :
    c.resize s = (c, []) := by
  rcases h with h | h <;> simp [CanvasData.resize, h]

/-- Witness for C3 at the spec's end-to-end scenario (resize to 0×600). -/
theorem C3_resize_zero_noop_witness : canvas0.resize ⟨0, 600⟩ = (canvas0, []) :=
  C3_resize_zero_noop canvas0 ⟨0, 600⟩ (Or.inl rfl)

/-- C5: when render fails with `OutOfMemory`, the closure logs the error
and requests loop exit, and once the exit flag is set the loop processes
no further events (state and trace unchanged for any subsequent input). -/
theorem C5_oom_terminates (st : LoopState) (scale : Rat) :
    stepEvent st ⟨scale, some .OutOfMemory, .windowEvent true .RedrawRequested⟩
      = ({ st with exiting := true }, [.logError "Out of memory"]) ∧
    ∀ inputs : List LoopInput,
      runEvents { st with exiting := true } inputs
        = ({ st with exiting := true }, []) := by
  constructor
  · simp [stepEvent, CanvasData.render, CanvasData.input, CanvasData.update,
      Error.fromSurfaceError]
  · intro inputs
    cases inputs <;> simp [runEvents]

/-- C7: every surface-acquisition failure maps into exactly one error
kind — `Lost` to `ContextLost`, surface out-of-memory to `OutOfMemory`,
and every other surface error to `GraphicsAPI` — and on a `GraphicsAPI`
render failure the loop closure only logs and leaves the state (and so
the loop) untouched. -/
theorem C7_surface_error_mapping :
    Error.fromSurfaceError .Lost = .ContextLost "Lost" ∧
    Error.fromSurfaceError .OutOfMemory = .OutOfMemory "Out of memory" ∧
    (∀ e : SurfaceError, e ≠ .Lost → e ≠ .OutOfMemory →
      Error.fromSurfaceError e = .GraphicsAPI e.display) ∧
    (∀ (st : LoopState) (scale : Rat) (e : SurfaceError) (msg : String),
      Error.fromSurfaceError e = .GraphicsAPI msg →
      stepEvent st ⟨scale, some e, .windowEvent true .RedrawRequested⟩
        = (st, [.logError (Error.debugFmt (.GraphicsAPI msg))])) := by
  refine ⟨rfl, rfl, ?_, ?_⟩
  · intro e h1 h2
    cases e <;> simp_all [Error.fromSurfaceError]
  · intro st scale e msg h
    simp [stepEvent, CanvasData.render, CanvasData.input, CanvasData.update, h]

/-- Witness for C7 at the `Timeout` surface error. -/
theorem C7_surface_error_mapping_witness :
    Error.fromSurfaceError .Timeout = .GraphicsAPI (SurfaceError.display .Timeout) ∧
    stepEvent (initLoopState canvas0)
        ⟨1, some .Timeout, .windowEvent true .RedrawRequested⟩
      = (initLoopState canvas0,
         [.logError (Error.debugFmt (.GraphicsAPI (SurfaceError.display .Timeout)))]) :=
  ⟨C7_surface_error_mapping.2.2.1 .Timeout (by decide) (by decide),
   C7_surface_error_mapping.2.2.2 (initLoopState canvas0) 1 .Timeout
     (SurfaceError.display .Timeout) rfl⟩

/-- C4: when render fails with `ContextLost`, the closure makes exactly
one resize call with the cached size (whose effects, the size being
positive, are one surface reconfiguration and one handler resize
notification) and the exit flag is untouched: the loop continues. -/
theorem C4_context_lost (st : LoopState) (scale : Rat)
    (hw : 0 < st.canvas.size.width) (hh : 0 < st.canvas.size.height) :
    stepEvent st ⟨scale, some .Lost, .windowEvent true .RedrawRequested⟩
      = ({ st with canvas := (st.canvas.resize st.canvas.size).1 },
         (st.canvas.resize st.canvas.size).2) ∧
    ((st.canvas.resize st.canvas.size).2).countP Effect.isHandlerResize = 1 ∧
    ((st.canvas.resize st.canvas.size).2).countP Effect.isSurfaceConfigure = 1 ∧
    (stepEvent st ⟨scale, some .Lost, .windowEvent true .RedrawRequested⟩).1.exiting
      = st.exiting := by
  refine ⟨?_, ?_, ?_, ?_⟩
  · simp [stepEvent, CanvasData.render, CanvasData.input, CanvasData.update,
      Error.fromSurfaceError]
  · simp [CanvasData.resize, hw, hh, List.countP, List.countP.go, Effect.isHandlerResize]
  · simp [CanvasData.resize, hw, hh, List.countP, List.countP.go, Effect.isSurfaceConfigure]
  · simp [stepEvent, CanvasData.render, CanvasData.input, CanvasData.update,
      Error.fromSurfaceError]

/-- Witness for C4 at a concrete 800×600 canvas state. -/
theorem C4_context_lost_witness :
    stepEvent (initLoopState canvas0) ⟨1, some .Lost, .windowEvent true .RedrawRequested⟩
      = ({ initLoopState canvas0 with
            canvas := ((initLoopState canvas0).canvas.resize
              (initLoopState canvas0).canvas.size).1 },
         ((initLoopState canvas0).canvas.resize (initLoopState canvas0).canvas.size).2) ∧
    (((initLoopState canvas0).canvas.resize
        (initLoopState canvas0).canvas.size).2).countP Effect.isHandlerResize = 1 ∧
    (((initLoopState canvas0).canvas.resize
        (initLoopState canvas0).canvas.size).2).countP Effect.isSurfaceConfigure = 1 ∧
    (stepEvent (initLoopState canvas0)
        ⟨1, some .Lost, .windowEvent true .RedrawRequested⟩).1.exiting
      = (initLoopState canvas0).exiting :=
  C4_context_lost (initLoopState canvas0) 1 (by decide) (by decide)

/-- The effects of a `resize` call contain only surface reconfigurations
and handler resize notifications, so any predicate false on those counts
zero occurrences. -/
theorem countP_resize_eq_zero (p : Effect → Bool) (c : CanvasData) (s : PhysicalSize)
    (h1 : ∀ cfg, p (.surfaceConfigure cfg) = false)
    (h2 : ∀ w h, p (.handlerResize w h) = false) :
    ((c.resize s).2).countP p = 0 := by
  unfold CanvasData.resize
  split <;> simp [List.countP_cons, h1, h2]

/-- A predicate false on every effect kind a loop iteration can emit
counts zero occurrences in any single step's effects.  In particular the
loop body never calls `setup` or `stop`. -/
theorem countP_step_eq_zero (p : Effect → Bool) (st : LoopState) (i : LoopInput)
    (h1 : ∀ cfg, p (.surfaceConfigure cfg) = false)
    (h2 : ∀ w h, p (.handlerResize w h) = false)
    (h3 : ∀ x y, p (.handlerCursorMove x y) = false)
    (h4 : ∀ x y b pr, p (.handlerMouseButton x y b pr) = false)
    (h5 : ∀ k pr, p (.handlerKeyboard k pr) = false)
    (h6 : ∀ m, p (.logError m) = false)
    (h7 : p .requestRedraw = false)
    (h8 : p .submit = false)
    (h9 : p .present = false)
    (h10 : p .handlerNextFrame = false) :
    ((stepEvent st i).2).countP p = 0 := by
  rcases i with ⟨scale, acq, ev⟩
  cases ev with
  | windowEvent same we =>
    cases same with
    | false => simp [stepEvent]
    | true =>
      cases we with
      | Resized s =>
        simpa [stepEvent, CanvasData.input] using countP_resize_eq_zero p st.canvas s h1 h2
      | CursorMoved pos => simp [stepEvent, CanvasData.input, List.countP_cons, h3]
      | MouseInput s b => simp [stepEvent, CanvasData.input, List.countP_cons, h4]
      | KeyboardInput k s => simp [stepEvent, CanvasData.input, List.countP_cons, h5]
      | CloseRequested => simp [stepEvent, CanvasData.input]
      | RedrawRequested =>
        rcases acq with _ | e
        · simp [stepEvent, CanvasData.input, CanvasData.update, CanvasData.render,
            List.countP_cons, h8, h9, h10]
        · cases e with
          | Lost =>
            simpa [stepEvent, CanvasData.input, CanvasData.update, CanvasData.render,
              Error.fromSurfaceError] using
              countP_resize_eq_zero p st.canvas st.canvas.size h1 h2
          | OutOfMemory =>
            simp [stepEvent, CanvasData.input, CanvasData.update, CanvasData.render,
              Error.fromSurfaceError, List.countP_cons, h6]
          | Timeout =>
            simp [stepEvent, CanvasData.input, CanvasData.update, CanvasData.render,
              Error.fromSurfaceError, List.countP_cons, h6]
          | Outdated =>
            simp [stepEvent, CanvasData.input, CanvasData.update, CanvasData.render,
              Error.fromSurfaceError, List.countP_cons, h6]
      | Other => simp [stepEvent, CanvasData.input]
  | aboutToWait => simp [stepEvent, List.countP_cons, h7]
  | other => simp [stepEvent]

/-- Lifts `countP_step_eq_zero` over a whole loop run. -/
theorem countP_run_eq_zero (p : Effect → Bool) (inputs : List LoopInput)
    (h1 : ∀ cfg, p (.surfaceConfigure cfg) = false)
    (h2 : ∀ w h, p (.handlerResize w h) = false)
    (h3 : ∀ x y, p (.handlerCursorMove x y) = false)
    (h4 : ∀ x y b pr, p (.handlerMouseButton x y b pr) = false)
    (h5 : ∀ k pr, p (.handlerKeyboard k pr) = false)
    (h6 : ∀ m, p (.logError m) = false)
    (h7 : p .requestRedraw = false)
    (h8 : p .submit = false)
    (h9 : p .present = false)
    (h10 : p .handlerNextFrame = false) :
    ∀ st : LoopState, ((runEvents st inputs).2).countP p = 0 := by
  induction inputs with
  | nil => intro st; simp [runEvents]
  | cons i rest ih =>
    intro st
    by_cases h : st.exiting = true
    · simp [runEvents, h]
    · simp [runEvents, h, List.countP_append, ih,
        countP_step_eq_zero p st i h1 h2 h3 h4 h5 h6 h7 h8 h9 h10]

/-- The loop never emits a `handlerStop` effect. -/
theorem run_no_stop (st : LoopState) (inputs : List LoopInput) :
    ((runEvents st inputs).2).countP Effect.isHandlerStop = 0 :=
  countP_run_eq_zero Effect.isHandlerStop inputs
    (fun _ => rfl) (fun _ _ => rfl) (fun _ _ => rfl) (fun _ _ _ _ => rfl)
    (fun _ _ => rfl) (fun _ => rfl) rfl rfl rfl rfl st

/-- The loop never emits a `handlerSetup` effect. -/
theorem run_no_setup (st : LoopState) (inputs : List LoopInput) :
    ((runEvents st inputs).2).countP Effect.isHandlerSetup = 0 :=
  countP_run_eq_zero Effect.isHandlerSetup inputs
    (fun _ => rfl) (fun _ _ => rfl) (fun _ _ => rfl) (fun _ _ _ _ => rfl)
    (fun _ _ => rfl) (fun _ => rfl) rfl rfl rfl rfl st

/-- C1: the runtime never invokes the handler's `stop` callback: on every
possible execution of `create_and_run_canvas` the trace contains zero
`handlerStop` effects, although shutdown does occur — a close-requested
event sets the exit flag and an `OutOfMemory` render failure sets the
exit flag, and in both concrete shutdown runs control returns to the
caller (with `Ok`), still without any `stop` call. -/
theorem C1_stop_never_called :
    (∀ (options : CanvasOptions) (elErr wErr : Option String)
       (innerSize : PhysicalSize) (caps : SurfaceCapabilities)
       (newFail : Option NewFailure) (setupFail : Option String)
       (inputs : List LoopInput) (runErr : Option String),
      ((create_and_run_canvas options elErr wErr innerSize caps newFail setupFail
          inputs runErr).1).countP Effect.isHandlerStop = 0) ∧
    (runEvents (initLoopState canvas0)
        [⟨1, none, .windowEvent true .CloseRequested⟩]).1.exiting = true ∧
    (runEvents (initLoopState canvas0)
        [⟨1, some .OutOfMemory, .windowEvent true .RedrawRequested⟩]).1.exiting = true ∧
    (create_and_run_canvas ⟨800, 600, "Hello World"⟩ none none ⟨800, 600⟩ caps0
        none none [⟨1, none, .windowEvent true .CloseRequested⟩] none).2 = .ok () ∧
    (create_and_run_canvas ⟨800, 600, "Hello World"⟩ none none ⟨800, 600⟩ caps0
        none none [⟨1, some .OutOfMemory, .windowEvent true .RedrawRequested⟩] none).2
      = .ok () := by
  refine ⟨?_, by decide, by decide, by rfl, by rfl⟩
  intro options elErr wErr innerSize caps newFail setupFail inputs runErr
  rcases elErr with _ | e₁
  · rcases wErr with _ | e₂
    · rcases newFail with _ | f
      · rcases setupFail with _ | err
        · rcases runErr with _ | e₃ <;>
            simp [create_and_run_canvas, CanvasData.newChecked, CanvasData.new,
              List.countP_append, List.countP_cons, run_no_stop, Effect.isHandlerStop]
        · simp [create_and_run_canvas, CanvasData.newChecked, CanvasData.new,
            List.countP_append, List.countP_cons, Effect.isHandlerStop]
      · cases f <;> simp [create_and_run_canvas, CanvasData.newChecked]
    · simp [create_and_run_canvas]
  · simp [create_and_run_canvas]

/-- C8: the handler's `setup` callback is called exactly once, after the
GPU context is fully created (its effect follows the creation-time
surface configuration, and no frame effect precedes it) and before any
frame; when `setup` fails, startup aborts with the error returned to the
caller and the loop contributes no effects at all. -/
theorem C8_setup_once :
    (∀ (options : CanvasOptions) (innerSize : PhysicalSize)
       (caps : SurfaceCapabilities) (inputs : List LoopInput)
       (runErr : Option String) (err : String),
      create_and_run_canvas options none none innerSize caps none (some err)
          inputs runErr
        = ((CanvasData.new innerSize caps).2 ++
            [.handlerSetup options.width options.height,
             .logError ("Error during setup: " ++ err)],
           .error (.Internal ("Error during setup: " ++ err)))) ∧
    (∀ (options : CanvasOptions) (innerSize : PhysicalSize)
       (caps : SurfaceCapabilities) (inputs : List LoopInput),
      (create_and_run_canvas options none none innerSize caps none none
          inputs none).1
        = (CanvasData.new innerSize caps).2 ++
          Effect.handlerSetup options.width options.height ::
          (runEvents (initLoopState (CanvasData.new innerSize caps).1) inputs).2 ∧
      ((create_and_run_canvas options none none innerSize caps none none
          inputs none).1).countP Effect.isHandlerSetup = 1 ∧
      (((CanvasData.new innerSize caps).2 ++
          [Effect.handlerSetup options.width options.height]).countP
        Effect.isHandlerNextFrame) = 0) := by
  constructor
  · intro options innerSize caps inputs runErr err
    simp [create_and_run_canvas, CanvasData.newChecked]
  · intro options innerSize caps inputs
    refine ⟨by simp [create_and_run_canvas, CanvasData.newChecked], ?_, ?_⟩
    · simp [create_and_run_canvas, CanvasData.newChecked, CanvasData.new,
        List.countP_append, List.countP_cons, Effect.isHandlerSetup, run_no_setup]
    · simp [CanvasData.new, List.countP_append, List.countP_cons,
        Effect.isHandlerNextFrame]

/-- C10: the `setup` callback receives the width and height from the
construction options, while the surface configuration is built from the
window's actual inner size; in a run where the platform adjusts the
window (options 800×600, inner size 1024×768) the two visibly differ. -/
theorem C10_setup_dims_from_options :
    (∀ (innerSize : PhysicalSize) (caps : SurfaceCapabilities),
      (CanvasData.new innerSize caps).1.config.width = innerSize.width ∧
      (CanvasData.new innerSize caps).1.config.height = innerSize.height) ∧
    (∀ (options : CanvasOptions) (innerSize : PhysicalSize)
       (caps : SurfaceCapabilities) (inputs : List LoopInput),
      (create_and_run_canvas options none none innerSize caps none none
          inputs none).1
        = (CanvasData.new innerSize caps).2 ++
          Effect.handlerSetup options.width options.height ::
          (runEvents (initLoopState (CanvasData.new innerSize caps).1) inputs).2) ∧
    ((create_and_run_canvas ⟨800, 600, "Hello World"⟩ none none ⟨1024, 768⟩ caps0
        none none [] none).1
      = [.surfaceConfigure (CanvasData.new ⟨1024, 768⟩ caps0).1.config,
         .handlerSetup 800 600] ∧
     (CanvasData.new ⟨1024, 768⟩ caps0).1.config.width ≠ 800 ∧
     (CanvasData.new ⟨1024, 768⟩ caps0).1.config.height ≠ 600) := by
  refine ⟨?_, ?_, by decide, by decide, by decide⟩
  · intro innerSize caps
    simp [CanvasData.new]
  · intro options innerSize caps inputs
    simp [create_and_run_canvas, CanvasData.newChecked]

/-- After one loop iteration the canvas is either untouched or the
result of one `resize` call on it. -/
theorem step_canvas_shape (st : LoopState) (i : LoopInput) :
    (stepEvent st i).1.canvas = st.canvas ∨
    ∃ s, (stepEvent st i).1.canvas = (st.canvas.resize s).1 := by
  rcases i with ⟨scale, acq, ev⟩
  cases ev with
  | windowEvent same we =>
    cases same with
    | false => left; simp [stepEvent]
    | true =>
      cases we with
      | Resized s => right; exact ⟨s, by simp [stepEvent, CanvasData.input]⟩
      | CursorMoved pos => left; simp [stepEvent, CanvasData.input]
      | MouseInput s b => left; simp [stepEvent, CanvasData.input]
      | KeyboardInput k s => left; simp [stepEvent, CanvasData.input]
      | CloseRequested => left; simp [stepEvent, CanvasData.input]
      | RedrawRequested =>
        rcases acq with _ | e
        · left
          simp [stepEvent, CanvasData.input, CanvasData.update, CanvasData.render]
        · cases e with
          | Lost =>
            right
            exact ⟨st.canvas.size, by
              simp [stepEvent, CanvasData.input, CanvasData.update, CanvasData.render,
                Error.fromSurfaceError]⟩
          | OutOfMemory =>
            left
            simp [stepEvent, CanvasData.input, CanvasData.update, CanvasData.render,
              Error.fromSurfaceError]
          | Timeout =>
            left
            simp [stepEvent, CanvasData.input, CanvasData.update, CanvasData.render,
              Error.fromSurfaceError]
          | Outdated =>
            left
            simp [stepEvent, CanvasData.input, CanvasData.update, CanvasData.render,
              Error.fromSurfaceError]
      | Other => left; simp [stepEvent, CanvasData.input]
  | aboutToWait => left; simp [stepEvent]
  | other => left; simp [stepEvent]

/-- C9 counterexample: the configuration built at creation time copies
the window's inner size unguarded, so for the inner size 0×600 the
configured width is 0 immediately after the surface is first configured,
refuting the claim for arbitrary window inner sizes. -/
theorem C9_counterexample :
    ¬ (0 < (CanvasData.new ⟨0, 600⟩ caps0).1.config.width) := by decide

/-- C9 (amended): provided the window's initial inner size is positive in
both dimensions, the configured width and height are positive immediately
after creation, `resize` preserves their positivity, and hence so does
every loop iteration. -/
theorem C9_amended :
    (∀ (innerSize : PhysicalSize) (caps : SurfaceCapabilities),
      0 < innerSize.width → 0 < innerSize.height →
      0 < (CanvasData.new innerSize caps).1.config.width ∧
      0 < (CanvasData.new innerSize caps).1.config.height) ∧
    (∀ (c : CanvasData) (s : PhysicalSize),
      0 < c.config.width → 0 < c.config.height →
      0 < (c.resize s).1.config.width ∧ 0 < (c.resize s).1.config.height) ∧
    (∀ (st : LoopState) (i : LoopInput),
      0 < st.canvas.config.width → 0 < st.canvas.config.height →
      0 < (stepEvent st i).1.canvas.config.width ∧
      0 < (stepEvent st i).1.canvas.config.height) := by
  have hresize : ∀ (c : CanvasData) (s : PhysicalSize),
      0 < c.config.width → 0 < c.config.height →
      0 < (c.resize s).1.config.width ∧ 0 < (c.resize s).1.config.height := by
    intro c s hw hh
    unfold CanvasData.resize
    split
    · rename_i h
      simp only [Bool.and_eq_true, decide_eq_true_eq] at h
      simpa using h
    · simpa using ⟨hw, hh⟩
  refine ⟨?_, hresize, ?_⟩
  · intro innerSize caps hw hh
    simpa [CanvasData.new] using ⟨hw, hh⟩
  · intro st i hw hh
    rcases step_canvas_shape st i with h | ⟨s, h⟩
    · rw [h]; exact ⟨hw, hh⟩
    · rw [h]; exact hresize st.canvas s hw hh

/-- Witness for C9 (amended) at concrete inputs: an 800×600 creation, a
zero-dimension resize of it, and a close-requested loop step. -/
theorem C9_amended_witness :
    (0 < (CanvasData.new ⟨800, 600⟩ caps0).1.config.width ∧
     0 < (CanvasData.new ⟨800, 600⟩ caps0).1.config.height) ∧
    (0 < (canvas0.resize ⟨0, 5⟩).1.config.width ∧
     0 < (canvas0.resize ⟨0, 5⟩).1.config.height) ∧
    (0 < (stepEvent (initLoopState canvas0)
            ⟨1, none, .windowEvent true .CloseRequested⟩).1.canvas.config.width ∧
     0 < (stepEvent (initLoopState canvas0)
            ⟨1, none, .windowEvent true .CloseRequested⟩).1.canvas.config.height) :=
  ⟨C9_amended.1 ⟨800, 600⟩ caps0 (by decide) (by decide),
   C9_amended.2.1 canvas0 ⟨0, 5⟩ (by decide) (by decide),
   C9_amended.2.2 (initLoopState canvas0) ⟨1, none, .windowEvent true .CloseRequested⟩
     (by decide) (by decide)⟩

/-- Tracking the cursor cache distributes over trace concatenation. -/
theorem trackCursor_append (p : Rat × Rat) (t1 t2 : List Effect) :
    trackCursor p (t1 ++ t2) = trackCursor (trackCursor p t1) t2 := by
  simp [trackCursor, List.foldl_append]

/-- The mouse-button/cursor-cache check splits over trace concatenation,
threading the cache through the first part. -/
theorem mouseUsesLatestCursor_append (p : Rat × Rat) (t1 t2 : List Effect) :
    mouseUsesLatestCursor p (t1 ++ t2)
      = (mouseUsesLatestCursor p t1 &&
         mouseUsesLatestCursor (trackCursor p t1) t2) := by
  induction t1 generalizing p with
  | nil => simp [mouseUsesLatestCursor, trackCursor]
  | cons e rest ih =>
    cases e <;>
      simp [mouseUsesLatestCursor, trackCursor, updateCursor, ih, Bool.and_assoc]

/-- A `resize` call emits neither cursor-move nor mouse-button effects. -/
theorem resize_cursor (p : Rat × Rat) (c : CanvasData) (s : PhysicalSize) :
    mouseUsesLatestCursor p (c.resize s).2 = true ∧
    trackCursor p (c.resize s).2 = p := by
  unfold CanvasData.resize
  split <;> simp [mouseUsesLatestCursor, trackCursor, updateCursor]

/-- Per loop iteration: every mouse-button effect emitted carries the
cached cursor position, and the cache after the iteration is the cache
folded over the iteration's effects. -/
theorem step_cursor (st : LoopState) (i : LoopInput) :
    mouseUsesLatestCursor st.cursorPos (stepEvent st i).2 = true ∧
    trackCursor st.cursorPos (stepEvent st i).2 = (stepEvent st i).1.cursorPos := by
  rcases i with ⟨scale, acq, ev⟩
  cases ev with
  | windowEvent same we =>
    cases same with
    | false => simp [stepEvent, mouseUsesLatestCursor, trackCursor]
    | true =>
      cases we with
      | Resized s =>
        simpa [stepEvent, CanvasData.input] using resize_cursor st.cursorPos st.canvas s
      | CursorMoved pos =>
        simp [stepEvent, CanvasData.input, mouseUsesLatestCursor, trackCursor,
          updateCursor]
      | MouseInput s b =>
        simp [stepEvent, CanvasData.input, mouseUsesLatestCursor, trackCursor,
          updateCursor]
      | KeyboardInput k s =>
        simp [stepEvent, CanvasData.input, mouseUsesLatestCursor, trackCursor,
          updateCursor]
      | CloseRequested =>
        simp [stepEvent, CanvasData.input, mouseUsesLatestCursor, trackCursor]
      | RedrawRequested =>
        rcases acq with _ | e
        · simp [stepEvent, CanvasData.input, CanvasData.update, CanvasData.render,
            mouseUsesLatestCursor, trackCursor, updateCursor]
        · cases e with
          | Lost =>
            simpa [stepEvent, CanvasData.input, CanvasData.update, CanvasData.render,
              Error.fromSurfaceError] using
              resize_cursor st.cursorPos st.canvas st.canvas.size
          | OutOfMemory =>
            simp [stepEvent, CanvasData.input, CanvasData.update, CanvasData.render,
              Error.fromSurfaceError, mouseUsesLatestCursor, trackCursor, updateCursor]
          | Timeout =>
            simp [stepEvent, CanvasData.input, CanvasData.update, CanvasData.render,
              Error.fromSurfaceError, mouseUsesLatestCursor, trackCursor, updateCursor]
          | Outdated =>
            simp [stepEvent, CanvasData.input, CanvasData.update, CanvasData.render,
              Error.fromSurfaceError, mouseUsesLatestCursor, trackCursor, updateCursor]
      | Other => simp [stepEvent, CanvasData.input, mouseUsesLatestCursor, trackCursor]
  | aboutToWait =>
    simp [stepEvent, mouseUsesLatestCursor, trackCursor, updateCursor]
  | other => simp [stepEvent, mouseUsesLatestCursor, trackCursor]

/-- Lifts `step_cursor` over a whole loop run. -/
theorem run_cursor (inputs : List LoopInput) :
    ∀ st : LoopState,
      mouseUsesLatestCursor st.cursorPos (runEvents st inputs).2 = true ∧
      trackCursor st.cursorPos (runEvents st inputs).2
        = (runEvents st inputs).1.cursorPos := by
  induction inputs with
  | nil => intro st; simp [runEvents, mouseUsesLatestCursor, trackCursor]
  | cons i rest ih =>
    intro st
    by_cases h : st.exiting = true
    · simp [runEvents, h, mouseUsesLatestCursor, trackCursor]
    · have hs := step_cursor st i
      have hr := ih (stepEvent st i).1
      constructor
      · simp [runEvents, h, mouseUsesLatestCursor_append, hs.1, hs.2, hr.1]
      · simp [runEvents, h, trackCursor_append, hs.2, hr.2]

/-- C6: in every run of the loop from its initial state, each
mouse-button callback carries exactly the coordinates of the most recent
prior cursor-move callback, or the initial (0,0) when none occurred; and
an iteration on any input other than a cursor-move event leaves the
cached cursor position unchanged. -/
theorem C6_mouse_button_uses_cached_cursor :
    (∀ (c : CanvasData) (inputs : List LoopInput),
      mouseUsesLatestCursor (0, 0) (runEvents (initLoopState c) inputs).2 = true) ∧
    (∀ (st : LoopState) (i : LoopInput), i.isCursorMove = false →
      (stepEvent st i).1.cursorPos = st.cursorPos) := by
  constructor
  · intro c inputs
    simpa [initLoopState] using (run_cursor inputs (initLoopState c)).1
  · intro st i h
    rcases i with ⟨scale, acq, ev⟩
    cases ev with
    | windowEvent same we =>
      cases same with
      | false => simp [stepEvent]
      | true =>
        cases we with
        | Resized s => simp [stepEvent, CanvasData.input]
        | CursorMoved pos => simp [LoopInput.isCursorMove] at h
        | MouseInput s b => simp [stepEvent, CanvasData.input]
        | KeyboardInput k s => simp [stepEvent, CanvasData.input]
        | CloseRequested => simp [stepEvent, CanvasData.input]
        | RedrawRequested =>
          rcases acq with _ | e
          · simp [stepEvent, CanvasData.input, CanvasData.update, CanvasData.render]
          · cases e <;>
              simp [stepEvent, CanvasData.input, CanvasData.update, CanvasData.render,
                Error.fromSurfaceError]
        | Other => simp [stepEvent, CanvasData.input]
    | aboutToWait => simp [stepEvent]
    | other => simp [stepEvent]

/-- Witness for C6 at the spec's end-to-end scenario: a cursor move to
logical (12.5, 7.0) (physical (25, 14) at scale factor 2) followed by a
primary-button press, plus a non-cursor-move step. -/
theorem C6_mouse_button_uses_cached_cursor_witness :
    mouseUsesLatestCursor (0, 0)
      (runEvents (initLoopState canvas0)
        [⟨2, none, .windowEvent true (.CursorMoved (25, 14))⟩,
         ⟨2, none, .windowEvent true (.MouseInput .Pressed .Left)⟩]).2 = true ∧
    (stepEvent (initLoopState canvas0)
        ⟨2, none, .windowEvent true (.MouseInput .Pressed .Left)⟩).1.cursorPos
      = (initLoopState canvas0).cursorPos :=
  ⟨C6_mouse_button_uses_cached_cursor.1 canvas0
     [⟨2, none, .windowEvent true (.CursorMoved (25, 14))⟩,
      ⟨2, none, .windowEvent true (.MouseInput .Pressed .Left)⟩],
   C6_mouse_button_uses_cached_cursor.2 (initLoopState canvas0)
     ⟨2, none, .windowEvent true (.MouseInput .Pressed .Left)⟩ (by decide)⟩
